import Mathlib

/- MagickTiler shallow embedding.  The Rust sources under
   src/main/rust/at/ait/dme/magicktiler/src are translated definition by
   definition: i32 is embedded as Int (32-bit overflow is not modelled; every
   statement below stays far inside the i32 range), file-system paths as plain
   strings (Path::join is concatenation with "/", Path::with_extension follows
   Rust's last-dot rule on the file name), and the f64 ceiling arithmetic of
   tile_set_info.rs and zoomify_validator.rs as exact rational arithmetic with
   Int.ceil - on the i32 domain those f64 divisions and ceilings are exact.
   The external image processor only matters through which invocations are
   issued, so its calls are recorded as ProcCall values. -/

/- image/image_format.rs: supported output formats with their fixed
   mime-type/extension mapping. -/

inductive ImageFormat
  | JPEG
  | PNG
  | TIFF
deriving DecidableEq

def ImageFormat.extension : ImageFormat → String
  | .JPEG => "jpg"
  | .PNG => "png"
  | .TIFF => "tif"

def ImageFormat.mime_type : ImageFormat → String
  | .JPEG => "image/jpeg"
  | .PNG => "image/png"
  | .TIFF => "image/tiff"

/- image/image_processor_imp.rs: the two supported processing systems. -/

inductive ImageProcessingSystem
  | graphicsMagick
  | imageMagick
deriving DecidableEq

/- std::io error values as used by stripe.rs (kind plus message). -/

inductive IoErrKind
  | invalidInput
  | permissionDenied
  | otherKind
deriving DecidableEq

structure IoErr where
  kind : IoErrKind
  message : String
deriving DecidableEq

/- magick_tiler.rs: TilingError with its IO and General variants (the From
   instance for std::io::Error produces the IO variant, as used by the `?`
   operator on Stripe::delete results). -/

inductive TilingError
  | ioErr (e : IoErr)
  | general (msg : String)
deriving DecidableEq

/- image/image_processor_imp.rs: the captured result of running the external
   command (std::process::Output): exit status, stdout and stderr.  A spawn
   failure of the child process is an IoErr. -/

structure CommandOutput where
  status : Int
  stdout : String
  stderr : String
deriving DecidableEq

/- image_processor_imp.rs ImageProcessorImpl::create_convert_command:
   "gm convert" for GraphicsMagick, "convert" for ImageMagick. -/

def create_convert_command : ImageProcessingSystem → List String
  | .graphicsMagick => ["gm", "convert"]
  | .imageMagick => ["convert"]

/- image_processor_imp.rs ImageProcessorImpl::resize (lines 111-125): builds
   the argument list and then runs `cmd.output().map(|_| ()).map_err(...)`.
   The `run` parameter models Command::output: it fails only when the child
   cannot be spawned, and otherwise yields the captured CommandOutput, whose
   exit status and stderr the source discards with `.map(|_| ())`. -/

def image_processor_resize (run : List String → Except IoErr CommandOutput)
    (sys : ImageProcessingSystem) (src target : String) (width height : Int) :
    Except IoErr Unit :=
  (run (create_convert_command sys ++
    [src, "-resize", toString width ++ "x" ++ toString height, target])).map fun _ => ()

/- image_processor_imp.rs ImageProcessorImpl::crop (lines 127-142), same
   discarding of the command's exit status and stderr. -/

def image_processor_crop (run : List String → Except IoErr CommandOutput)
    (sys : ImageProcessingSystem) (src target : String) (width height : Int) :
    Except IoErr Unit :=
  (run (create_convert_command sys ++
    [src, "-crop", toString width ++ "x" ++ toString height, "+adjoin", target])).map fun _ => ()

/- stripe.rs: stripe orientations and the Stripe value object. -/

inductive StripeOrientation
  | horizontal
  | vertical
deriving DecidableEq

structure Stripe where
  file : String
  width : Int
  height : Int
  orientation : StripeOrientation
deriving DecidableEq

/- Modelled from the spec: the montage and convert operations of the image
   processor that stripe.rs invokes are absent from src/ (the ImageProcessor
   trait declares neither, and the concrete processor value stripe.rs builds
   does not exist there).  Per spec section 4.1 they are opaque raster
   operations, so they are embedded as recorded invocations: a ProcCall lists
   the sources, the target and the geometry arguments of one invocation. -/

inductive ProcCall
  | montage (srcs : List String) (target : String) (xTiles yTiles w h : Int)
      (background gravity : Option String)
  | montageRaw (srcs : List String) (target : String) (xTiles yTiles : Int)
      (rawArgs : List (String × String))
  | convertRaw (src target : String) (rawArgs : List (String × String))
deriving DecidableEq

/- stripe.rs line 35: the error message of the orientation guard. -/

def different_orientation_error : IoErr :=
  ⟨.invalidInput, "Cannot merge. Stripes have different orientation"⟩

/- stripe.rs Stripe::merge_with_canvas (lines 83-151).  The result pairs the
   image-processor invocations performed with the returned Stripe value.
   Mirrors the source exactly: the orientation guard first; then, when both
   extents exceed -1, w = x_extent, h = y_extent, w = w / 2, a montage that is
   only issued when both gravity and background_color are Some, and a stripe
   (target, w, h) returned unconditionally; otherwise the raw-args montage
   with the halved merge dimensions. -/

def Stripe.merge_with_canvas (self other : Stripe) (gravity : Option String)
    (xExtent yExtent : Int) (backgroundColor : Option String) (targetFile : String) :
    Except IoErr (List ProcCall × Stripe) :=
  if other.orientation ≠ self.orientation then
    .error different_orientation_error
  else
    let srcs := [self.file, other.file]
    let xTiles : Int := match self.orientation with | .horizontal => 1 | .vertical => 2
    let yTiles : Int := match self.orientation with | .horizontal => 2 | .vertical => 1
    if xExtent > -1 ∧ yExtent > -1 then
      let w := xExtent / 2
      let h := yExtent
      let calls := match gravity, backgroundColor with
        | some g, some bg => [ProcCall.montage srcs targetFile xTiles yTiles w h (some bg) (some g)]
        | _, _ => []
      .ok (calls, ⟨targetFile, w, h, self.orientation⟩)
    else
      let w := match self.orientation with
        | .horizontal => self.width / 2
        | .vertical => (self.width + other.width) / 2
      let h := match self.orientation with
        | .horizontal => (self.height + other.height) / 4
        | .vertical => self.height / 2
      .ok ([ProcCall.montageRaw srcs targetFile xTiles yTiles
              [("-geometry", "+0+0"), ("-resize", "50%x50%")]],
           ⟨targetFile, w, h, self.orientation⟩)

/- stripe.rs Stripe::merge (lines 67-74): merge_with_canvas with no gravity,
   extents -1 and no background. -/

def Stripe.merge (self other : Stripe) (targetFile : String) :
    Except IoErr (List ProcCall × Stripe) :=
  self.merge_with_canvas other none (-1) (-1) none targetFile

/- stripe.rs Stripe::shrink_with_canvas (lines 166-222). -/

def Stripe.shrink_with_canvas (self : Stripe) (gravity : Option String)
    (xExtent yExtent : Int) (backgroundColor : Option String) (targetFile : String) :
    Except IoErr (List ProcCall × Stripe) :=
  if xExtent > -1 ∧ yExtent > -1 then
    let srcs := [self.file, "null:"]
    let xTiles : Int := match self.orientation with | .horizontal => 1 | .vertical => 2
    let yTiles : Int := match self.orientation with | .horizontal => 2 | .vertical => 1
    let calls := match gravity, backgroundColor with
      | some g, some bg =>
          [ProcCall.montage srcs targetFile xTiles yTiles (xExtent / 2) yExtent (some bg) (some g)]
      | _, _ => []
    .ok (calls, ⟨targetFile, xExtent, yExtent, self.orientation⟩)
  else
    .ok ([ProcCall.convertRaw self.file targetFile [("-scale", "50%x50%")]],
         ⟨targetFile, self.width / 2, self.height / 2, self.orientation⟩)

/- stripe.rs Stripe::shrink (lines 154-160). -/

def Stripe.shrink (self : Stripe) (targetFile : String) :
    Except IoErr (List ProcCall × Stripe) :=
  self.shrink_with_canvas none (-1) (-1) none targetFile

/- Rust Path helpers.  last_dot_idx finds the index of the final '.' in a
   file name; rust_with_extension follows Path::with_extension: the stem is
   the whole name when there is no '.' or when the only '.' is leading, and
   the portion before the final '.' otherwise; a non-empty new extension is
   appended after a '.'. -/

def last_dot_idx : List Char → Option Nat
  | [] => none
  | c :: cs =>
      match last_dot_idx cs with
      | some i => some (i + 1)
      | none => if c = '.' then some 0 else none

def rust_file_stem (name : String) : String :=
  match last_dot_idx name.toList with
  | none => name
  | some 0 => name
  | some i => String.mk (name.toList.take i)

def rust_with_extension (name ext : String) : String :=
  if ext = "" then rust_file_stem name else rust_file_stem name ++ "." ++ ext

def path_join (dir name : String) : String := dir ++ "/" ++ name

/- gmaps/google_maps_tiler.rs convert_internal lines 265-270: the file name a
   Google Maps tile is renamed to.  tile_base's file name is z.to_string();
   with_extension then appends "._{column}_{row}_.{ext}" after the stem. -/

def gmaps_written_tile_name (z column row : Int) (ext : String) : String :=
  rust_with_extension (toString z)
    ("_" ++ toString column ++ "_" ++ toString row ++ "_." ++ ext)

/- gmaps/google_maps_validator.rs validate line 65: the file name the
   validator requires to exist for zoom level z, column x, row y. -/

def gmaps_expected_tile_name (z x y : Int) (ext : String) : String :=
  toString z ++ "_" ++ toString x ++ "_" ++ toString y ++ "_" ++ ext

/- spec section 4.6 (claim C1 wording): the flat naming the specification
   prescribes for Google Maps tiles, "{z}-{col}-{row}.{ext}". -/

def gmaps_spec_tile_name (z col row : Int) (ext : String) : String :=
  toString z ++ "-" ++ toString col ++ "-" ++ toString row ++ "." ++ ext

/- image/image_info.rs ImageInfo::new (lines 13-19): ignores the processing
   system entirely and stubs both dimensions to 0 - the identify operation is
   never invoked. -/

structure ImageInfo where
  file : String
  width : Int
  height : Int
deriving DecidableEq

def ImageInfo.new (file : String) (system : String) : ImageInfo :=
  { file := file, width := 0, height := 0 }

/- tile_set_info.rs TileSetInfo and TileSetInfo::new (lines 31-46): width and
   height are hard-coded to 0; only the format and the processing-system name
   are read off the processor, so they are passed directly. -/

structure TileSetInfo where
  image_file : String
  width : Int
  height : Int
  tile_width : Int
  tile_height : Int
  format : ImageFormat
  img_info : ImageInfo
deriving DecidableEq

def TileSetInfo.new (image : String) (tile_width tile_height : Int)
    (format : ImageFormat) (system : String) : TileSetInfo :=
  { image_file := image, width := 0, height := 0,
    tile_width := tile_width, tile_height := tile_height,
    format := format, img_info := ImageInfo.new image system }

/- tile_set_info.rs TileSetInfo::number_of_x_tiles / number_of_y_tiles
   (lines 83-91): ((dim as f64 / 2^z as f64) / tile as f64).ceil() as i32,
   embedded exactly over the rationals. -/

def number_of_x_tiles (width tile_width : Int) (zoom_level : Nat) : Int :=
  ⌈((width : ℚ) / ((2 : ℚ) ^ zoom_level)) / (tile_width : ℚ)⌉

def number_of_y_tiles (height tile_height : Int) (zoom_level : Nat) : Int :=
  ⌈((height : ℚ) / ((2 : ℚ) ^ zoom_level)) / (tile_height : ℚ)⌉

/- zoomify/zoomify_validator.rs parse_image_properties (lines 73-90): the
   base tile count is (dim as f64 / tile_size as f64).ceil() as i32, and the
   per-level counts push ceil(x) while halving x (kept un-ceiled) once per
   level; zoomify_halving_list builds exactly that pushed list. -/

def zoomify_halving_list (x : ℚ) : Nat → List Int
  | 0 => []
  | n + 1 => ⌈x⌉ :: zoomify_halving_list (x / 2) n

def zoomify_validator_tiles (dim tile_size : Int) (levels : Nat) : List Int :=
  zoomify_halving_list ((⌈(dim : ℚ) / (tile_size : ℚ)⌉ : ℤ) : ℚ) levels

/- gmaps/google_maps_tiler.rs resize_base_image (lines 127-142): the loop
   `for pow in 0.. { prev = new; new = 256 * 2.pow(pow); if new > max_dim
   break }` threaded through prev, followed by the absolute-distance choice
   with ties to the higher value.  256 is a literal in the source; the
   configured tile size is not consulted. -/

def gmaps_pow_loop (maxDim prev : Int) (pow : Nat) : Int × Int :=
  if h : maxDim < 256 * 2 ^ pow then (prev, 256 * 2 ^ pow)
  else gmaps_pow_loop maxDim (256 * 2 ^ pow) (pow + 1)
termination_by (maxDim + 1 - 256 * 2 ^ pow).toNat
decreasing_by
  have h2 : (256 : Int) * 2 ^ (pow + 1) = 2 * (256 * 2 ^ pow) := by ring
  have h3 : (0 : Int) < 256 * 2 ^ pow := by positivity
  omega

def resize_base_image_side (maxDim : Int) : Int :=
  let pn := gmaps_pow_loop maxDim 0 0
  if |maxDim - pn.1| < |maxDim - pn.2| then pn.1 else pn.2

/- zoomify/zoomify_tiler.rs convert_internal lines 231-240 and tms/mod.rs
   convert_internal lines 265-274: `for s in &level_beneath { s.delete()?; }`.
   The list holds the outcome of each stripe's delete call; the `?` operator
   converts the first io error into TilingError::IO and aborts. -/

def zoomify_delete_level_stripes : List (Except IoErr Unit) → Except TilingError Unit
  | [] => .ok ()
  | .error e :: _ => .error (.ioErr e)
  | .ok _ :: rest => zoomify_delete_level_stripes rest

def tms_delete_level_stripes : List (Except IoErr Unit) → Except TilingError Unit
  | [] => .ok ()
  | .error e :: _ => .error (.ioErr e)
  | .ok _ :: rest => tms_delete_level_stripes rest

/- gmaps/google_maps_tiler.rs convert_internal lines 300-312: the cleanup
   loop `if let Err(e) = stripe.delete() { error!(...) }` collects (logs) the
   failures and the function then returns Ok(info) regardless. -/

def gmaps_logged_delete_errors : List (Except IoErr Unit) → List IoErr
  | [] => []
  | .error e :: rest => e :: gmaps_logged_delete_errors rest
  | .ok _ :: rest => gmaps_logged_delete_errors rest

def gmaps_cleanup_and_finish (info : TileSetInfo)
    (deletes : List (Except IoErr Unit)) : Except TilingError TileSetInfo :=
  let _logged := gmaps_logged_delete_errors deletes
  .ok info

/- gmaps/google_maps_tiler.rs create_stripes_for_next_zoom_level (lines
   86-119): iterates i over 0..ceil(n/2); the pair (stripes[2i],
   stripes[2i+1]) is merged, but when 2i+1 is out of range (odd n) nothing is
   pushed for the trailing stripe.  The chunked recursion below visits the
   same pairs in the same order; the target path is
   working_dir/base_file_name with extension "" then "{z}-{i}.tif". -/

def gmaps_next_level (baseName : String) (z : Int) :
    List Stripe → Nat → Except IoErr (List Stripe)
  | [], _ => .ok []
  | [_], _ => .ok []
  | s1 :: s2 :: rest, i =>
      match s1.merge s2 (rust_with_extension (rust_with_extension baseName "")
          (toString z ++ "-" ++ toString i ++ ".tif")) with
      | .error e => .error e
      | .ok r =>
          match gmaps_next_level baseName z rest (i + 1) with
          | .error e => .error e
          | .ok tail => .ok (r.2 :: tail)

/- zoomify/zoomify_tiler.rs merge_stripes (lines 89-106): the unpaired
   stripe (stripe2 = None) is shrunk, a pair is merged. -/

def zoomify_merge_stripes (s1 : Stripe) (s2 : Option Stripe) (target : String) :
    Except IoErr (List ProcCall × Stripe) :=
  match s2 with
  | none => s1.shrink target
  | some s => s1.merge s target

/- zoomify/zoomify_tiler.rs convert_internal lines 201-229, restricted to the
   stripe-production part of the per-level loop (step 3a): pairs from the
   level beneath are merged, the odd trailing stripe is shrunk, targets are
   working_dir/"{base}-{level}-{j}.tif". -/

def zoomify_next_level (wd baseName : String) (level : Int) :
    List Stripe → Nat → Except IoErr (List Stripe)
  | [], _ => .ok []
  | [s1], j =>
      match zoomify_merge_stripes s1 none
          (path_join wd (baseName ++ "-" ++ toString level ++ "-" ++ toString j ++ ".tif")) with
      | .error e => .error e
      | .ok r => .ok [r.2]
  | s1 :: s2 :: rest, j =>
      match zoomify_merge_stripes s1 (some s2)
          (path_join wd (baseName ++ "-" ++ toString level ++ "-" ++ toString j ++ ".tif")) with
      | .error e => .error e
      | .ok r =>
          match zoomify_next_level wd baseName level rest (j + 1) with
          | .error e => .error e
          | .ok tail => .ok (r.2 :: tail)

/- tms/mod.rs merge_stripes (lines 92-123): the merged height keeps the tile
   count even, gravity SouthWest and opaque white background; the unpaired
   stripe is shrunk with the identical canvas policy. -/

def tms_merge_stripes (tileW tileH : Int) (s1 : Stripe) (s2 : Option Stripe)
    (target : String) : Except IoErr (List ProcCall × Stripe) :=
  let height := if (s1.height / tileH) % 2 ≠ 0
    then s1.height / 2 + tileH / 2
    else s1.height / 2
  match s2 with
  | none => s1.shrink_with_canvas (some "SouthWest") tileW height (some "#ffffffff") target
  | some s => s1.merge_with_canvas s (some "SouthWest") tileW height (some "#ffffffff") target

/- tms/mod.rs convert_internal lines 240-263, restricted to the
   stripe-production part of the per-level loop (step 3a). -/

def tms_next_level (wd baseName : String) (tileW tileH : Int) (level : Int) :
    List Stripe → Nat → Except IoErr (List Stripe)
  | [], _ => .ok []
  | [s1], j =>
      match tms_merge_stripes tileW tileH s1 none
          (path_join wd (baseName ++ "-" ++ toString level ++ "-" ++ toString j ++ ".tif")) with
      | .error e => .error e
      | .ok r => .ok [r.2]
  | s1 :: s2 :: rest, j =>
      match tms_merge_stripes tileW tileH s1 (some s2)
          (path_join wd (baseName ++ "-" ++ toString level ++ "-" ++ toString j ++ ".tif")) with
      | .error e => .error e
      | .ok r =>
          match tms_next_level wd baseName tileW tileH level rest (j + 1) with
          | .error e => .error e
          | .ok tail => .ok (r.2 :: tail)

/- Helper facts shared by several claim proofs. -/

theorem list_pair_induction {α : Type} {P : List α → Prop} (h0 : P [])
    (h1 : ∀ a, P [a]) (h2 : ∀ a b l, P l → P (a :: b :: l)) : ∀ l, P l
  | [] => h0
  | [a] => h1 a
  | a :: b :: l => h2 a b l (list_pair_induction h0 h1 h2 l)

/-- C7: for every two stripes whose orientations differ and every target
path (and any canvas arguments), Stripe::merge_with_canvas, and hence
Stripe::merge which delegates to it, fails with the InvalidInput
different-orientation error; the merge never succeeds on mismatched
orientations. -/
theorem stripe_merge_mismatched_orientation_fails (s1 s2 : Stripe)
    (g bg : Option String) (x y : Int) (t t2 : String)
    (h : s1.orientation ≠ s2.orientation) :
    s1.merge_with_canvas s2 g x y bg t = .error different_orientation_error ∧
    s1.merge s2 t2 = .error different_orientation_error ∧
    different_orientation_error.kind = .invalidInput := by
  have h' : s2.orientation ≠ s1.orientation := fun e => h e.symm
  refine ⟨?_, ?_, rfl⟩ <;> simp [Stripe.merge, Stripe.merge_with_canvas, h']

theorem stripe_merge_mismatched_orientation_fails_witness :
    (Stripe.mk "a.tif" 1000 256 .horizontal).orientation ≠
      (Stripe.mk "b.tif" 256 1000 .vertical).orientation ∧
    ((Stripe.mk "a.tif" 1000 256 .horizontal).merge_with_canvas
        (Stripe.mk "b.tif" 256 1000 .vertical) (some "SouthWest") 256 100
        (some "#ffffffff") "t.tif" = .error different_orientation_error ∧
      (Stripe.mk "a.tif" 1000 256 .horizontal).merge
        (Stripe.mk "b.tif" 256 1000 .vertical) "u.tif" = .error different_orientation_error ∧
      different_orientation_error.kind = .invalidInput) :=
  ⟨by decide,
   stripe_merge_mismatched_orientation_fails _ _ (some "SouthWest") (some "#ffffffff")
     256 100 "t.tif" "u.tif" (by decide)⟩

/-- C10: Stripe::merge_with_canvas and Stripe::shrink_with_canvas invoke the
image processor only when both gravity and background_color are Some: with
extents that are at least 0 and either argument None, no processor call is
recorded ([]), yet both still return Ok with a Stripe referencing the target
file (which no invocation ever created). -/
theorem canvas_without_gravity_or_background_skips_processor (s1 s2 : Stripe)
    (g bg : Option String) (x y : Int) (t t2 : String)
    (horient : s2.orientation = s1.orientation) (hx : 0 ≤ x) (hy : 0 ≤ y)
    (hnone : g = none ∨ bg = none) :
    s1.merge_with_canvas s2 g x y bg t = .ok ([], ⟨t, x / 2, y, s1.orientation⟩) ∧
    s1.shrink_with_canvas g x y bg t2 = .ok ([], ⟨t2, x, y, s1.orientation⟩) := by
  have hxy : x > -1 ∧ y > -1 := ⟨by omega, by omega⟩
  constructor
  · rcases hnone with h | h <;> subst h
    · simp [Stripe.merge_with_canvas, horient, hxy]
    · cases g <;> simp [Stripe.merge_with_canvas, horient, hxy]
  · rcases hnone with h | h <;> subst h
    · simp [Stripe.shrink_with_canvas, hxy]
    · cases g <;> simp [Stripe.shrink_with_canvas, hxy]

theorem canvas_without_gravity_or_background_skips_processor_witness :
    ((Stripe.mk "b.tif" 1000 256 .horizontal).orientation =
        (Stripe.mk "a.tif" 1000 256 .horizontal).orientation ∧
      (0 : Int) ≤ 256 ∧ (0 : Int) ≤ 100 ∧
      ((none : Option String) = none ∨ (some "#ffffffff" : Option String) = none)) ∧
    ((Stripe.mk "a.tif" 1000 256 .horizontal).merge_with_canvas
        (Stripe.mk "b.tif" 1000 256 .horizontal) none 256 100 (some "#ffffffff") "t.tif"
        = .ok ([], ⟨"t.tif", 128, 100, .horizontal⟩) ∧
      (Stripe.mk "a.tif" 1000 256 .horizontal).shrink_with_canvas none 256 100
        (some "#ffffffff") "u.tif" = .ok ([], ⟨"u.tif", 256, 100, .horizontal⟩)) :=
  ⟨⟨rfl, by decide, by decide, Or.inl rfl⟩,
   canvas_without_gravity_or_background_skips_processor _ _ none (some "#ffffffff")
     256 100 "t.tif" "u.tif" rfl (by decide) (by decide) (Or.inl rfl)⟩

/-- C6 counterexample: merging two same-orientation stripes with canvas
extents (256, 100) returns a stripe of width 128 = 256 / 2, not width 256 as
the claim states. -/
theorem merge_with_canvas_extent_width_counterexample :
    ((Stripe.mk "a.tif" 1000 256 .horizontal).merge_with_canvas
        (Stripe.mk "b.tif" 1000 256 .horizontal) (some "SouthWest") 256 100
        (some "#ffffffff") "t.tif").map (fun r => (r.2.width, r.2.height))
      = .ok (128, 100) ∧ (128 : Int) ≠ 256 := by
  exact ⟨rfl, by decide⟩

/-- C6 amended: for every pair of same-orientation stripes and canvas
arguments with extents at least 0, merge_with_canvas returns Ok with a
stripe whose width is extent_x / 2 (integer division) and whose height is
extent_y; when gravity and background are both given, the montage it issues
uses cells of exactly those dimensions. -/
theorem merge_with_canvas_result_dims (s1 s2 : Stripe) (g bg : Option String)
    (x y : Int) (t : String) (horient : s2.orientation = s1.orientation)
    (hx : 0 ≤ x) (hy : 0 ≤ y) :
    (s1.merge_with_canvas s2 g x y bg t).map (fun r => r.2)
        = .ok ⟨t, x / 2, y, s1.orientation⟩ ∧
    (∀ gv bgv, g = some gv → bg = some bgv →
      s1.merge_with_canvas s2 g x y bg t =
        .ok ([ProcCall.montage [s1.file, s2.file] t
                (match s1.orientation with | .horizontal => 1 | .vertical => 2)
                (match s1.orientation with | .horizontal => 2 | .vertical => 1)
                (x / 2) y (some bgv) (some gv)],
             ⟨t, x / 2, y, s1.orientation⟩)) := by
  have hxy : x > -1 ∧ y > -1 := ⟨by omega, by omega⟩
  constructor
  · cases g <;> cases bg <;> simp [Stripe.merge_with_canvas, horient, hxy, Except.map]
  · intro gv bgv hg hbg
    subst hg; subst hbg
    simp [Stripe.merge_with_canvas, horient, hxy]

theorem merge_with_canvas_result_dims_witness :
    ((Stripe.mk "b.tif" 1000 256 .horizontal).orientation =
        (Stripe.mk "a.tif" 1000 256 .horizontal).orientation ∧
      (0 : Int) ≤ 256 ∧ (0 : Int) ≤ 100) ∧
    ((Stripe.mk "a.tif" 1000 256 .horizontal).merge_with_canvas
        (Stripe.mk "b.tif" 1000 256 .horizontal) (some "SouthWest") 256 100
        (some "#ffffffff") "t.tif").map (fun r => r.2)
      = .ok ⟨"t.tif", 256 / 2, 100, (Stripe.mk "a.tif" 1000 256 .horizontal).orientation⟩ :=
  ⟨⟨rfl, by decide, by decide⟩,
   (merge_with_canvas_result_dims (Stripe.mk "a.tif" 1000 256 .horizontal)
     (Stripe.mk "b.tif" 1000 256 .horizontal) (some "SouthWest") (some "#ffffffff") 256 100
     "t.tif" rfl (by decide) (by decide)).1⟩

/-- C3: at a concrete failing input - the underlying convert command exits
with status 1 and a non-empty stderr - both ImageProcessorImpl::resize and
ImageProcessorImpl::crop return Ok(()), not an image-processing error
carrying the stderr: the sources discard the exit status with
`output().map(|_| ())`, so a non-zero exit is never surfaced. -/
theorem resize_crop_ignore_nonzero_exit_status :
    image_processor_resize
        (fun _ => .ok ⟨1, "", "gm convert: Unable to open file (missing.jpg)"⟩)
        .graphicsMagick "missing.jpg" "out.jpg" 256 256 = .ok () ∧
    image_processor_crop
        (fun _ => .ok ⟨1, "", "gm convert: Unable to open file (missing.jpg)"⟩)
        .graphicsMagick "missing.jpg" "tmp-%d.jpg" 256 256 = .ok () :=
  ⟨rfl, rfl⟩

/-- C2: the TileSetInfo that BaseMagickTiler::convert_to builds via
TileSetInfo::new has width and height hard-coded to 0 (and its ImageInfo
likewise), for every source image, tile size, format and processing system:
the identify operation is never consulted, so the dimensions do not equal
the identified pixel dimensions of any non-degenerate image. -/
theorem tile_set_info_new_dimensions_are_zero (image : String) (tw th : Int)
    (fmt : ImageFormat) (sys : String) :
    (TileSetInfo.new image tw th fmt sys).width = 0 ∧
    (TileSetInfo.new image tw th fmt sys).height = 0 ∧
    (TileSetInfo.new image tw th fmt sys).img_info.width = 0 ∧
    (TileSetInfo.new image tw th fmt sys).img_info.height = 0 :=
  ⟨rfl, rfl, rfl, rfl⟩

/-- C1: at the concrete tile (z = 1, column = 2, row = 3, JPEG) the Google
Maps tiler writes the file name "1._2_3_.jpg" (Path::with_extension applied
to the zoom-level file name), while the Google Maps validator requires the
file "1_2_3_jpg" to exist, and the scheme's documented flat naming is
"1-2-3.jpg"; the written name matches neither, so a tileset produced by the
tiler cannot validate (nor follow the documented naming) as soon as it
contains a tile. -/
theorem gmaps_tile_name_mismatch :
    gmaps_written_tile_name 1 2 3 "jpg" = "1._2_3_.jpg" ∧
    gmaps_expected_tile_name 1 2 3 "jpg" = "1_2_3_jpg" ∧
    gmaps_spec_tile_name 1 2 3 "jpg" = "1-2-3.jpg" ∧
    gmaps_written_tile_name 1 2 3 "jpg" ≠ gmaps_expected_tile_name 1 2 3 "jpg" ∧
    gmaps_written_tile_name 1 2 3 "jpg" ≠ gmaps_spec_tile_name 1 2 3 "jpg" := by
  refine ⟨by decide, by decide, by decide, by decide, by decide⟩

/-- C5 counterexample: one stripe whose delete fails makes the Zoomify
per-level deletion pass return an error (which convert_internal propagates
with `?`, failing the conversion), while the same pass with a successful
deletion returns Ok - so a deletion failure does change the conversion's
result, contrary to the claim. -/
theorem zoomify_stripe_delete_failure_aborts :
    zoomify_delete_level_stripes
        [.error ⟨.permissionDenied, "Could not delete file: stripe0.tif"⟩]
      = .error (.ioErr ⟨.permissionDenied, "Could not delete file: stripe0.tif"⟩) ∧
    zoomify_delete_level_stripes [.ok ()] = .ok () :=
  ⟨rfl, rfl⟩

/-- C5 amended: only the Google Maps tiler treats stripe-deletion failure as
non-fatal - its cleanup logs the errors and convert_internal still returns
Ok(info) whatever the deletion outcomes were; in the Zoomify and TMS tilers
the per-level deletion loops use `s.delete()?`, so the first failed deletion
aborts the conversion with an IO tiling error. -/
theorem stripe_delete_failure_fatality_by_tiler (info : TileSetInfo)
    (ds ds1 ds2 : List (Except IoErr Unit)) (e : IoErr)
    (h : ∀ r ∈ ds1, r = .ok ()) :
    gmaps_cleanup_and_finish info ds = .ok info ∧
    zoomify_delete_level_stripes (ds1 ++ .error e :: ds2) = .error (.ioErr e) ∧
    tms_delete_level_stripes (ds1 ++ .error e :: ds2) = .error (.ioErr e) := by
  refine ⟨rfl, ?_, ?_⟩
  · induction ds1 with
    | nil => rfl
    | cons r rest ih =>
        have hr : r = .ok () := h r (List.mem_cons_self r rest)
        subst hr
        exact ih (fun r' hr' => h r' (List.mem_cons_of_mem _ hr'))
  · induction ds1 with
    | nil => rfl
    | cons r rest ih =>
        have hr : r = .ok () := h r (List.mem_cons_self r rest)
        subst hr
        exact ih (fun r' hr' => h r' (List.mem_cons_of_mem _ hr'))

theorem stripe_delete_failure_fatality_by_tiler_witness :
    (∀ r ∈ ([.ok ()] : List (Except IoErr Unit)), r = .ok ()) ∧
    (gmaps_cleanup_and_finish (TileSetInfo.new "img.jpg" 256 256 .JPEG "GraphicsMagick")
        [.error ⟨.permissionDenied, "Could not delete file: s.tif"⟩]
      = .ok (TileSetInfo.new "img.jpg" 256 256 .JPEG "GraphicsMagick") ∧
      zoomify_delete_level_stripes
          ([.ok ()] ++ .error ⟨.permissionDenied, "Could not delete file: s.tif"⟩ :: [])
        = .error (.ioErr ⟨.permissionDenied, "Could not delete file: s.tif"⟩) ∧
      tms_delete_level_stripes
          ([.ok ()] ++ .error ⟨.permissionDenied, "Could not delete file: s.tif"⟩ :: [])
        = .error (.ioErr ⟨.permissionDenied, "Could not delete file: s.tif"⟩)) :=
  ⟨by simp,
   stripe_delete_failure_fatality_by_tiler
     (TileSetInfo.new "img.jpg" 256 256 .JPEG "GraphicsMagick")
     [.error ⟨.permissionDenied, "Could not delete file: s.tif"⟩]
     [.ok ()] [] ⟨.permissionDenied, "Could not delete file: s.tif"⟩ (by simp)⟩

/- Helper lemmas for C8: the i-th entry of the validator's halving loop, and
   the exchange of an inner integer ceiling with a positive natural
   division. -/

theorem zoomify_halving_list_getD (x : ℚ) :
    ∀ (n i : Nat), i < n → (zoomify_halving_list x n).getD i 0 = ⌈x / 2 ^ i⌉ := by
  intro n
  induction n generalizing x with
  | zero => intro i h; omega
  | succ n ih =>
      intro i h
      cases i with
      | zero => simp [zoomify_halving_list]
      | succ i =>
          have := ih (x / 2) i (by omega)
          simp only [zoomify_halving_list, List.getD_cons_succ]
          rw [this, div_div, ← pow_succ']

theorem ceil_intCast_div_nat (a : ℚ) (n : ℕ) (hn : 0 < n) :
    ⌈((⌈a⌉ : ℤ) : ℚ) / (n : ℚ)⌉ = ⌈a / (n : ℚ)⌉ := by
  have hn' : (0 : ℚ) < n := by exact_mod_cast hn
  apply le_antisymm
  · rw [Int.ceil_le, div_le_iff₀ hn']
    have h1 : a / (n : ℚ) ≤ (⌈a / (n : ℚ)⌉ : ℚ) := Int.le_ceil _
    have h2 : a ≤ (⌈a / (n : ℚ)⌉ : ℚ) * n := (div_le_iff₀ hn').mp h1
    have h3 : (⌈a⌉ : ℤ) ≤ ⌈a / (n : ℚ)⌉ * n := by
      rw [Int.ceil_le]
      push_cast
      exact h2
    exact_mod_cast h3
  · exact Int.ceil_mono ((div_le_div_iff_of_pos_right hn').mpr (Int.le_ceil a))

theorem zoomify_validator_entry_eq (d S : Int) (n i : Nat) (hi : i < n) :
    (zoomify_validator_tiles d S n).getD i 0
      = ⌈(((d : ℚ)) / ((2 : ℚ) ^ i)) / (S : ℚ)⌉ := by
  have h1 := zoomify_halving_list_getD ((⌈(d : ℚ) / (S : ℚ)⌉ : ℤ) : ℚ) n i hi
  have h2 := ceil_intCast_div_nat ((d : ℚ) / (S : ℚ)) (2 ^ i) (by positivity)
  have hcast : (((2 : ℕ) ^ i : ℕ) : ℚ) = (2 : ℚ) ^ i := by push_cast; ring
  rw [zoomify_validator_tiles, h1]
  rw [hcast] at h2
  rw [h2, div_div, div_div, mul_comm]

/-- C8: for every width, height and tile size at least 1 and every zoom level
i (within any level count n), the Zoomify validator's per-level tile counts -
obtained by pushing ceil(x) while repeatedly halving the un-ceiled
ceil(width / tilesize), i.e. ceil(ceil(width / tilesize) / 2^i) - equal
TileSetInfo's per-level formula ceil((width / 2^i) / tilesize), and likewise
for the height: validator and tiler predict the same tile grid at every
level. -/
theorem zoomify_validator_counts_match_tile_set_info (w h S : Int) (n i : Nat)
    (hw : 1 ≤ w) (hh : 1 ≤ h) (hS : 1 ≤ S) (hi : i < n) :
    (zoomify_validator_tiles w S n).getD i 0 = number_of_x_tiles w S i ∧
    (zoomify_validator_tiles h S n).getD i 0 = number_of_y_tiles h S i :=
  ⟨zoomify_validator_entry_eq w S n i hi, zoomify_validator_entry_eq h S n i hi⟩

theorem zoomify_validator_counts_match_tile_set_info_witness :
    ((1 : Int) ≤ 1000 ∧ (1 : Int) ≤ 750 ∧ (1 : Int) ≤ 256 ∧ 1 < 3) ∧
    ((zoomify_validator_tiles 1000 256 3).getD 1 0 = number_of_x_tiles 1000 256 1 ∧
      (zoomify_validator_tiles 750 256 3).getD 1 0 = number_of_y_tiles 750 256 1) :=
  ⟨⟨by decide, by decide, by decide, by decide⟩,
   zoomify_validator_counts_match_tile_set_info 1000 750 256 3 1
     (by decide) (by decide) (by decide) (by decide)⟩

/- Helper lemmas for C9: merge and the canvased variants succeed on
   same-orientation inputs. -/

theorem stripe_merge_ok (s1 s2 : Stripe) (t : String)
    (h : s2.orientation = s1.orientation) : ∃ r, s1.merge s2 t = .ok r := by
  simp only [Stripe.merge, Stripe.merge_with_canvas, h]
  simp

theorem stripe_merge_with_canvas_ok (s1 s2 : Stripe) (g bg : Option String)
    (x y : Int) (t : String) (h : s2.orientation = s1.orientation) :
    ∃ r, s1.merge_with_canvas s2 g x y bg t = .ok r := by
  simp only [Stripe.merge_with_canvas, h]
  split
  · simp at *
  · split <;> exact ⟨_, rfl⟩

theorem stripe_shrink_with_canvas_ok (s : Stripe) (g bg : Option String)
    (x y : Int) (t : String) :
    ∃ r, s.shrink_with_canvas g x y bg t = .ok r := by
  unfold Stripe.shrink_with_canvas
  split <;> exact ⟨_, rfl⟩

theorem gmaps_next_level_length (o : StripeOrientation) (bn : String) (z : Int) :
    ∀ ss : List Stripe, (∀ s ∈ ss, s.orientation = o) → ∀ i,
      (gmaps_next_level bn z ss i).map List.length = .ok (ss.length / 2) := by
  refine list_pair_induction ?_ ?_ ?_
  · intro _ i; rfl
  · intro a _ i; simp [gmaps_next_level, Except.map]
  · intro a b l ih hmem i
    have hab : b.orientation = a.orientation := by
      rw [hmem b (by simp), hmem a (by simp)]
    obtain ⟨r, hr⟩ := stripe_merge_ok a b
      (rust_with_extension (rust_with_extension bn "")
        (toString z ++ "-" ++ toString i ++ ".tif")) hab
    have htail := ih (fun s hs => hmem s (by simp [hs])) (i + 1)
    simp only [gmaps_next_level, hr]
    cases hnl : gmaps_next_level bn z l (i + 1) with
    | error e => rw [hnl] at htail; simp [Except.map] at htail
    | ok tail =>
        rw [hnl] at htail
        simp only [Except.map] at htail ⊢
        have hlen : tail.length = l.length / 2 := by simpa using htail
        simp only [List.length_cons, hlen]
        have h2 : (l.length + 1 + 1) / 2 = l.length / 2 + 1 := by omega
        rw [h2]

theorem gmaps_next_level_drops_last (o : StripeOrientation) (bn : String) (z : Int) :
    ∀ ss : List Stripe, (∀ s ∈ ss, s.orientation = o) → ss.length % 2 = 1 → ∀ i,
      gmaps_next_level bn z ss i = gmaps_next_level bn z ss.dropLast i := by
  refine list_pair_induction ?_ ?_ ?_
  · intro _ h
    exact absurd h (by simp)
  · intro a _ _ i; rfl
  · intro a b l ih hmem hodd i
    have hlen : l.length % 2 = 1 := by
      have : (a :: b :: l).length = l.length + 2 := by simp
      omega
    have hne : l ≠ [] := by
      intro hcon; rw [hcon] at hlen; simp at hlen
    have hdl : (a :: b :: l).dropLast = a :: b :: l.dropLast := by
      cases l with
      | nil => exact absurd rfl hne
      | cons c cs => rfl
    rw [hdl]
    simp only [gmaps_next_level]
    rw [ih (fun s hs => hmem s (by simp [hs])) hlen (i + 1)]

theorem zoomify_next_level_length (o : StripeOrientation) (wd bn : String) (lev : Int) :
    ∀ ss : List Stripe, (∀ s ∈ ss, s.orientation = o) → ∀ j,
      (zoomify_next_level wd bn lev ss j).map List.length = .ok ((ss.length + 1) / 2) := by
  refine list_pair_induction ?_ ?_ ?_
  · intro _ j; rfl
  · intro a _ j
    obtain ⟨r, hr⟩ := stripe_shrink_with_canvas_ok a none none (-1) (-1)
      (path_join wd (bn ++ "-" ++ toString lev ++ "-" ++ toString j ++ ".tif"))
    simp [zoomify_next_level, zoomify_merge_stripes, Stripe.shrink, hr, Except.map]
  · intro a b l ih hmem j
    have hab : b.orientation = a.orientation := by
      rw [hmem b (by simp), hmem a (by simp)]
    obtain ⟨r, hr⟩ := stripe_merge_ok a b
      (path_join wd (bn ++ "-" ++ toString lev ++ "-" ++ toString j ++ ".tif")) hab
    have htail := ih (fun s hs => hmem s (by simp [hs])) (j + 1)
    simp only [zoomify_next_level, zoomify_merge_stripes, hr]
    cases hnl : zoomify_next_level wd bn lev l (j + 1) with
    | error e => rw [hnl] at htail; simp [Except.map] at htail
    | ok tail =>
        rw [hnl] at htail
        simp only [Except.map] at htail ⊢
        have hlen : tail.length = (l.length + 1) / 2 := by simpa using htail
        simp only [List.length_cons, hlen]
        have h2 : (l.length + 1 + 1 + 1) / 2 = (l.length + 1) / 2 + 1 := by omega
        rw [h2]

theorem tms_next_level_length (o : StripeOrientation) (wd bn : String)
    (tw th lev : Int) :
    ∀ ss : List Stripe, (∀ s ∈ ss, s.orientation = o) → ∀ j,
      (tms_next_level wd bn tw th lev ss j).map List.length = .ok ((ss.length + 1) / 2) := by
  refine list_pair_induction ?_ ?_ ?_
  · intro _ j; rfl
  · intro a _ j
    obtain ⟨r, hr⟩ := stripe_shrink_with_canvas_ok a (some "SouthWest") (some "#ffffffff")
      tw (if (a.height / th) % 2 ≠ 0 then a.height / 2 + th / 2 else a.height / 2)
      (path_join wd (bn ++ "-" ++ toString lev ++ "-" ++ toString j ++ ".tif"))
    simp only [tms_next_level, tms_merge_stripes, hr]
    simp [Except.map]
  · intro a b l ih hmem j
    have hab : b.orientation = a.orientation := by
      rw [hmem b (by simp), hmem a (by simp)]
    obtain ⟨r, hr⟩ := stripe_merge_with_canvas_ok a b (some "SouthWest") (some "#ffffffff")
      tw (if (a.height / th) % 2 ≠ 0 then a.height / 2 + th / 2 else a.height / 2)
      (path_join wd (bn ++ "-" ++ toString lev ++ "-" ++ toString j ++ ".tif")) hab
    have htail := ih (fun s hs => hmem s (by simp [hs])) (j + 1)
    simp only [tms_next_level, tms_merge_stripes, hr]
    cases hnl : tms_next_level wd bn tw th lev l (j + 1) with
    | error e => rw [hnl] at htail; simp [Except.map] at htail
    | ok tail =>
        rw [hnl] at htail
        simp only [Except.map] at htail ⊢
        have hlen : tail.length = (l.length + 1) / 2 := by simpa using htail
        simp only [List.length_cons, hlen]
        have h2 : (l.length + 1 + 1 + 1) / 2 = (l.length + 1) / 2 + 1 := by omega
        rw [h2]

/-- C9: when a zoom level holds an odd number n of same-orientation stripes,
the Google Maps tiler's create_stripes_for_next_zoom_level produces only
floor(n / 2) merged stripes - it is unchanged by dropping the unpaired
trailing stripe, which it never shrinks (on a single stripe it produces
nothing) - unlike the Zoomify and TMS per-level loops, which produce
ceil(n / 2) = (n + 1) / 2 stripes by shrinking the unpaired one (on a single
stripe, Zoomify's merge_stripes returns exactly the 50 percent shrink of that
stripe). -/
theorem gmaps_drops_unpaired_trailing_stripe (o : StripeOrientation)
    (ss : List Stripe) (bn wd : String) (z lev tw th : Int) (i j k : Nat)
    (hmem : ∀ s ∈ ss, s.orientation = o) (hodd : ss.length % 2 = 1) :
    (gmaps_next_level bn z ss i).map List.length = .ok (ss.length / 2) ∧
    gmaps_next_level bn z ss i = gmaps_next_level bn z ss.dropLast i ∧
    (zoomify_next_level wd bn lev ss j).map List.length = .ok ((ss.length + 1) / 2) ∧
    (tms_next_level wd bn tw th lev ss k).map List.length = .ok ((ss.length + 1) / 2) ∧
    (∀ s : Stripe, ∀ i2 : Nat, gmaps_next_level bn z [s] i2 = .ok []) ∧
    (∀ s : Stripe, ∀ j2 : Nat, zoomify_next_level wd bn lev [s] j2
        = .ok [⟨path_join wd (bn ++ "-" ++ toString lev ++ "-" ++ toString j2 ++ ".tif"),
               s.width / 2, s.height / 2, s.orientation⟩]) := by
  refine ⟨gmaps_next_level_length o bn z ss hmem i,
          gmaps_next_level_drops_last o bn z ss hmem hodd i,
          zoomify_next_level_length o wd bn lev ss hmem j,
          tms_next_level_length o wd bn tw th lev ss hmem k,
          ?_, ?_⟩
  · intro s i2; rfl
  · intro s j2
    simp [zoomify_next_level, zoomify_merge_stripes, Stripe.shrink,
      Stripe.shrink_with_canvas]

theorem gmaps_drops_unpaired_trailing_stripe_witness :
    ((∀ s ∈ [Stripe.mk "s0.tif" 1024 256 .horizontal,
             Stripe.mk "s1.tif" 1024 256 .horizontal,
             Stripe.mk "s2.tif" 1024 256 .horizontal], s.orientation = .horizontal) ∧
      ([Stripe.mk "s0.tif" 1024 256 .horizontal,
        Stripe.mk "s1.tif" 1024 256 .horizontal,
        Stripe.mk "s2.tif" 1024 256 .horizontal] : List Stripe).length % 2 = 1) ∧
    ((gmaps_next_level "img.jpg" 1
          [Stripe.mk "s0.tif" 1024 256 .horizontal,
           Stripe.mk "s1.tif" 1024 256 .horizontal,
           Stripe.mk "s2.tif" 1024 256 .horizontal] 0).map List.length = .ok 1 ∧
      gmaps_next_level "img.jpg" 1
          [Stripe.mk "s0.tif" 1024 256 .horizontal,
           Stripe.mk "s1.tif" 1024 256 .horizontal,
           Stripe.mk "s2.tif" 1024 256 .horizontal] 0
        = gmaps_next_level "img.jpg" 1
            ([Stripe.mk "s0.tif" 1024 256 .horizontal,
              Stripe.mk "s1.tif" 1024 256 .horizontal,
              Stripe.mk "s2.tif" 1024 256 .horizontal] : List Stripe).dropLast 0 ∧
      (zoomify_next_level "work" "img.jpg" 1
          [Stripe.mk "s0.tif" 1024 256 .horizontal,
           Stripe.mk "s1.tif" 1024 256 .horizontal,
           Stripe.mk "s2.tif" 1024 256 .horizontal] 0).map List.length = .ok 2 ∧
      (tms_next_level "work" "img.jpg" 256 256 1
          [Stripe.mk "s0.tif" 1024 256 .horizontal,
           Stripe.mk "s1.tif" 1024 256 .horizontal,
           Stripe.mk "s2.tif" 1024 256 .horizontal] 0).map List.length = .ok 2 ∧
      (∀ s : Stripe, ∀ i2 : Nat, gmaps_next_level "img.jpg" 1 [s] i2 = .ok []) ∧
      (∀ s : Stripe, ∀ j2 : Nat, zoomify_next_level "work" "img.jpg" 1 [s] j2
          = .ok [⟨path_join "work"
                    ("img.jpg" ++ "-" ++ toString (1 : Int) ++ "-" ++ toString j2 ++ ".tif"),
                  s.width / 2, s.height / 2, s.orientation⟩])) :=
  ⟨⟨by decide, by decide⟩,
   gmaps_drops_unpaired_trailing_stripe .horizontal
     [Stripe.mk "s0.tif" 1024 256 .horizontal,
      Stripe.mk "s1.tif" 1024 256 .horizontal,
      Stripe.mk "s2.tif" 1024 256 .horizontal]
     "img.jpg" "work" 1 1 256 256 0 0 0 (by decide) (by decide)⟩

/- Helper for C4: full characterisation of the prev/new pair computed by the
   resize_base_image power loop. -/

theorem gmaps_pow_loop_spec (m : Int) :
    ∀ (prev : Int) (pow : Nat), (∀ j : Nat, j < pow → 256 * 2 ^ j ≤ m) →
      prev = (if pow = 0 then (0 : Int) else 256 * 2 ^ (pow - 1)) →
      ∃ k : Nat, pow ≤ k ∧
        gmaps_pow_loop m prev pow
          = ((if k = 0 then (0 : Int) else 256 * 2 ^ (k - 1)), 256 * 2 ^ k) ∧
        m < 256 * 2 ^ k ∧ (∀ j : Nat, j < k → 256 * 2 ^ j ≤ m) := by
  refine gmaps_pow_loop.induct m
    (fun prev pow => (∀ j : Nat, j < pow → 256 * 2 ^ j ≤ m) →
      prev = (if pow = 0 then (0 : Int) else 256 * 2 ^ (pow - 1)) →
      ∃ k : Nat, pow ≤ k ∧
        gmaps_pow_loop m prev pow
          = ((if k = 0 then (0 : Int) else 256 * 2 ^ (k - 1)), 256 * 2 ^ k) ∧
        m < 256 * 2 ^ k ∧ (∀ j : Nat, j < k → 256 * 2 ^ j ≤ m)) ?_ ?_
  · intro prev pow hlt hinv hprev
    refine ⟨pow, le_refl _, ?_, hlt, hinv⟩
    rw [gmaps_pow_loop, dif_pos hlt, hprev]
  · intro prev pow hnlt ih hinv hprev
    have hle : 256 * 2 ^ pow ≤ m := by omega
    have hinv2 : ∀ j : Nat, j < pow + 1 → 256 * 2 ^ j ≤ m := by
      intro j hj
      rcases Nat.lt_succ_iff_lt_or_eq.mp hj with hlt2 | heq2
      · exact hinv j hlt2
      · subst heq2; exact hle
    have hprev2 : (256 : Int) * 2 ^ pow
        = (if pow + 1 = 0 then (0 : Int) else 256 * 2 ^ (pow + 1 - 1)) := by simp
    obtain ⟨k, hk, heq, hlt3, hj3⟩ := ih hinv2 hprev2
    refine ⟨k, by omega, ?_, hlt3, hj3⟩
    rw [gmaps_pow_loop, dif_neg hnlt]
    exact heq

/-- C4 counterexample: for a source image whose larger dimension is 100 (with
the default 256-pixel tile size), resize_base_image chooses the side length
0: the initial prev value 0 (not a power-of-two multiple of any tile size,
and smaller than every such multiple, all of which are at least 256) wins the
absolute-distance comparison, refuting the claim at this concrete input. -/
theorem resize_side_small_image_counterexample : resize_base_image_side 100 = 0 ∧
    resize_base_image_side 100 < 256 := by
  have h : gmaps_pow_loop 100 0 0 = (0, 256) := by
    rw [gmaps_pow_loop]
    norm_num
  constructor <;> · rw [resize_base_image_side, h]; norm_num

/-- C4 amended: for every source image (max dimension m at least 0), the side
length chosen for the squared base image is decided between `prev` and
`next`, where `next` = 256 * 2 ^ k is the smallest power-of-two multiple of
the hard-coded constant 256 - not of the configured tile size - strictly
greater than m, and `prev` is 256 * 2 ^ (k - 1) when k is at least 1 and 0
(not a tile-size multiple) when m < 256; the winner is the candidate closer
to m by absolute distance, with ties going to the higher value next. -/
theorem resize_side_characterization (m : Int) (hm : 0 ≤ m) :
    ∃ k : Nat,
      (gmaps_pow_loop m 0 0).2 = 256 * 2 ^ k ∧
      m < 256 * 2 ^ k ∧
      (∀ j : Nat, m < 256 * 2 ^ j → k ≤ j) ∧
      (gmaps_pow_loop m 0 0).1 = (if k = 0 then (0 : Int) else 256 * 2 ^ (k - 1)) ∧
      (gmaps_pow_loop m 0 0).1 ≤ m ∧
      resize_base_image_side m =
        (if 2 * m < (gmaps_pow_loop m 0 0).1 + (gmaps_pow_loop m 0 0).2
         then (gmaps_pow_loop m 0 0).1 else (gmaps_pow_loop m 0 0).2) := by
  obtain ⟨k, -, heq, hlt, hjs⟩ :=
    gmaps_pow_loop_spec m 0 0 (by omega) (by simp)
  have h1 : (gmaps_pow_loop m 0 0).1 = (if k = 0 then (0 : Int) else 256 * 2 ^ (k - 1)) := by
    rw [heq]
  have h2 : (gmaps_pow_loop m 0 0).2 = 256 * 2 ^ k := by rw [heq]
  have hprevle : (gmaps_pow_loop m 0 0).1 ≤ m := by
    rw [h1]
    by_cases hk0 : k = 0
    · simp [hk0, hm]
    · simp only [hk0, if_false]
      exact hjs (k - 1) (by omega)
  have hmin : ∀ j : Nat, m < 256 * 2 ^ j → k ≤ j := by
    intro j hj
    by_contra hcon
    push_neg at hcon
    exact absurd hj (not_lt.mpr (hjs j hcon))
  refine ⟨k, h2, hlt, hmin, h1, hprevle, ?_⟩
  unfold resize_base_image_side
  have hmlt : m < (gmaps_pow_loop m 0 0).2 := by rw [h2]; exact hlt
  have habs : |m - (gmaps_pow_loop m 0 0).1| < |m - (gmaps_pow_loop m 0 0).2|
      ↔ 2 * m < (gmaps_pow_loop m 0 0).1 + (gmaps_pow_loop m 0 0).2 := by
    rw [abs_of_nonneg (by omega), abs_of_neg (by omega)]
    omega
  rw [if_congr habs rfl rfl]

theorem resize_side_characterization_witness :
    (0 : Int) ≤ 600 ∧
    (∃ k : Nat,
      (gmaps_pow_loop 600 0 0).2 = 256 * 2 ^ k ∧
      (600 : Int) < 256 * 2 ^ k ∧
      (∀ j : Nat, (600 : Int) < 256 * 2 ^ j → k ≤ j) ∧
      (gmaps_pow_loop 600 0 0).1 = (if k = 0 then (0 : Int) else 256 * 2 ^ (k - 1)) ∧
      (gmaps_pow_loop 600 0 0).1 ≤ 600 ∧
      resize_base_image_side 600 =
        (if 2 * 600 < (gmaps_pow_loop 600 0 0).1 + (gmaps_pow_loop 600 0 0).2
         then (gmaps_pow_loop 600 0 0).1 else (gmaps_pow_loop 600 0 0).2)) :=
  ⟨by decide, resize_side_characterization 600 (by decide)⟩
